import Mathlib

/-!
Verification of the Face-Perception noise-synthesis engine
(`noise_generators_camera.py`, `noise_generators_environment.py`,
`noise_faces.py`) against its natural-language specification.

The Python code is shallowly embedded:
* images are records of spatial dimensions, an optional channel count
  (`none` models a 2-D numpy array, `some c` a 3-D `H×W×c` array) and a
  flattened list of 8-bit samples;
* real-valued quantities (mean luminance, gamma, random draws) are
  modelled by exact rationals;
* the process-wide unseeded random generator is made explicit as a list
  of rational draws in `[0,1)` that is threaded through every call;
* external library primitives whose pixel arithmetic is irrelevant to
  the claims (the gaussian smoothing filter, `adjust_gamma`, the
  gaussian/poisson modes of `random_noise`, `math.exp`) appear as
  function parameters of the embedding; the facts about them the claims
  need (e.g. preservation of spatial dimensions) are explicit hypotheses;
* Python failures (NameError, ImportError, ValueError, AssertionError,
  numpy axis errors) are constructors of an error result type, and the
  unbounded convergence loops are fuel-indexed, with a separate
  `fuelOut` outcome that is never a normal return.
-/

namespace FaceNoise

/-- Result of running a piece of the embedded Python code: either a normal
return value or one of the failure modes the sources can raise.  `fuelOut`
marks that the fuel bound of a convergence loop was exhausted; it is never
a normal return. -/
inductive PyResult (α : Type) where
  | ok : α → PyResult α
  | nameError : String → PyResult α
  | importError : String → PyResult α
  | valueError : String → PyResult α
  | assertionError : PyResult α
  | axisError : PyResult α
  | fuelOut : PyResult α
deriving DecidableEq

/-- `true` exactly on a normal return. -/
def PyResult.isOk {α : Type} : PyResult α → Bool
  | PyResult.ok _ => true
  | _ => false

/-- An image as the noise generators handle it: `rows × cols` spatial grid,
`channels = none` for a 2-D (grayscale) numpy array and `some c` for a 3-D
`H×W×c` array, with the 8-bit samples flattened row-major into `data`. -/
structure Image where
  rows : Nat
  cols : Nat
  channels : Option Nat
  data : List Nat
deriving DecidableEq

/-- The spatial dimensions `shape[:2]` of an image. -/
def shape2 (im : Image) : Nat × Nat := (im.rows, im.cols)

/-- Number of samples per pixel (a 2-D array has one). -/
def Image.sampleCount (im : Image) : Nat := (im.channels).getD 1

/-- `skimage.img_as_float(image).mean()`: the mean of the samples scaled
into `[0,1]`. -/
def Image.meanLum (im : Image) : ℚ :=
  ((im.data.map fun v => (v : ℚ)).sum) / (255 * im.data.length)

/-- One draw from the process-wide unseeded generator (`random.random()`),
modelled as consuming the head of the draw stream. -/
def rand_next : List ℚ → ℚ × List ℚ
  | [] => (0, [])
  | u :: rest => (u, rest)

/-- `random.randint(a, b)`: an integer in `[a, b]`, both ends included,
derived from one uniform draw. -/
def randint (rng : List ℚ) (a b : Nat) : Nat × List ℚ :=
  let (u, rng1) := rand_next rng
  (a + (⌊u * ((b : ℚ) - a + 1)⌋).toNat, rng1)

/-! ### Module namespaces and imports

`noise_generators_environment.py` (line 22) and `noise_faces.py` (line 18)
both run

  `from noise_generators_camera import poor_focus, dark_noise, shot_noise,
   salt_and_pepper, under_expose, over_expose`

A `from … import` binds each requested name only if it is an attribute of
the imported module; a missing attribute makes the import fail, so the
importing module never becomes usable. -/

/-- Every top-level name bound in `noise_generators_camera.py`: its import
statements (lines 2–20) followed by its function definitions. -/
def camera_module_names : List String :=
  ["os", "shutil", "time", "glob", "random", "np", "json", "mp", "math",
   "cv", "sklearn", "skimage", "Image", "ImageOps", "feature",
   "blur", "gaussian", "poisson", "salt_and_pepper",
   "under_expose", "over_expose", "image_write"]

/-- The names `noise_generators_environment.py` line 22 requests from the
camera module. -/
def environment_import_requests : List String :=
  ["poor_focus", "dark_noise", "shot_noise",
   "salt_and_pepper", "under_expose", "over_expose"]

/-- First requested name that the providing module does not define, if
any; Python's `from … import` raises an ImportError on that name. -/
def from_import_missing (defined requested : List String) : Option String :=
  requested.find? fun n => !(defined.contains n)

/-- Loading `noise_generators_environment.py`: the module body runs its
line-22 import before any function can be called. -/
def load_environment_module : PyResult Unit :=
  match from_import_missing camera_module_names environment_import_requests with
  | some n => PyResult.importError n
  | none => PyResult.ok ()

/-- The six effects of the Environment Noise Library. -/
inductive EnvNoise where
  | point_source | point_shadow
  | streak_source | streak_shadow
  | pipe_source | pipe_shadow
deriving DecidableEq

/-- Invoking an environment effect requires its defining module to have
loaded; the line-22 import is part of that load.  (The branch behind a
successful load is never reached — see `environment_import_always_fails` —
because the camera module has no attribute `poor_focus`; the function
bodies behind it are therefore not modelled further.) -/
def environment_call (t : EnvNoise) (image : Image) : PyResult Image :=
  match load_environment_module with
  | PyResult.ok _ => PyResult.nameError "poor_focus"
  | PyResult.importError n => PyResult.importError n
  | PyResult.nameError n => PyResult.nameError n
  | PyResult.valueError n => PyResult.valueError n
  | PyResult.assertionError => PyResult.assertionError
  | PyResult.axisError => PyResult.axisError
  | PyResult.fuelOut => PyResult.fuelOut

/-! ### PIL format conversions

The camera transforms route infrared images through PIL mode conversions
(`convert('LA')`, `convert("RGB")`, `ImageOps.grayscale`).  These are
modelled pixelwise; the luma uses PIL's ITU-R 601-2 integer formula
`L = (19595 R + 38470 G + 7471 B + 32768) >> 16`. -/

/-- Split the flattened samples into per-pixel groups of `c` samples. -/
def chunks (c : Nat) : List Nat → List (List Nat)
  | [] => []
  | v :: rest =>
    if c = 0 then []
    else (v :: rest).take c :: chunks c (rest.drop (c - 1))
termination_by l => l.length
decreasing_by
  simp [List.length_drop]
  omega

/-- PIL's integer luma of one pixel: a one- or two-sample (`L` / `LA`)
pixel already carries its luma first; an RGB(A) pixel is weighted. -/
def pil_luma : List Nat → Nat
  | [v] => v
  | [l, _] => l
  | r :: g :: b :: _ => (19595 * r + 38470 * g + 7471 * b + 32768) / 65536
  | _ => 0

/-- The alpha sample of a pixel: an existing fourth sample, else opaque. -/
def pil_alpha : List Nat → Nat
  | [_, _, _, a] => a
  | [_, a] => a
  | _ => 255

/-- `image.convert('LA')`: one luma plus one alpha sample per pixel. -/
def convert_la (im : Image) : Image :=
  { rows := im.rows, cols := im.cols, channels := some 2,
    data := (chunks im.sampleCount im.data).flatMap fun px => [pil_luma px, pil_alpha px] }

/-- `image.convert("RGB")` after the noise step: the luma is replicated
into three channels, the alpha dropped. -/
def convert_rgb (im : Image) : Image :=
  { rows := im.rows, cols := im.cols, channels := some 3,
    data := (chunks im.sampleCount im.data).flatMap fun px => [pil_luma px, pil_luma px, pil_luma px] }

/-- `ImageOps.grayscale(image)`: a single-plane (2-D) luma image. -/
def grayscale (im : Image) : Image :=
  { rows := im.rows, cols := im.cols, channels := none,
    data := (chunks im.sampleCount im.data).map pil_luma }

/-! ### Camera Noise Library (`noise_generators_camera.py`)

External skimage primitives appear as function parameters:
* `gf` stands for `skimage.filters.gaussian` composed with the
  `np.uint8(·*255)` re-quantisation (blur, line 45–46);
* `rn_gauss var` / `rn_poisson` stand for `skimage.util.random_noise`
  with `mode='gaussian'` / `mode='poisson'` and `seed=None`, composed with
  the uint8 re-quantisation; being unseeded they consume the global draw
  stream, which the model threads explicitly;
* the salt-and-pepper mode of `random_noise` is modelled concretely,
  since claims evaluate it on concrete inputs: each sample independently
  becomes salt (`255`) with probability `amount/2`, pepper (`0`) with
  probability `amount/2`, and is otherwise kept. -/

/-- `blur` (lines 22–49).  The default `sigma` is `random.randint(3, 5)`;
`skimage.filters.gaussian` is called with `channel_axis=2`, which requires
a 3-D array — on a 2-D input numpy raises an axis error.  The `IR` flag is
accepted and never used, exactly as in the source. -/
def blur (gf : Nat → Image → Image) (rng : List ℚ) (image : Image)
    (sigma : Option Nat) (IR : Bool) : PyResult (Image × List ℚ) :=
  let (s, rng1) :=
    match sigma with
    | some s => (s, rng)
    | none => randint rng 3 5
  match image.channels with
  | none => PyResult.axisError
  | some _ => PyResult.ok (gf s image, rng1)

/-- `gaussian` (lines 51–97).  With `IR` the image is converted to `LA`
before the noise and back to `RGB` after it; the default variance is
`.01 * random.randint(1, 3)`.  `cv_image` only switches the numpy/PIL
representation, which the model does not distinguish. -/
def gaussian (rn_gauss : ℚ → List ℚ → Image → Image × List ℚ) (rng : List ℚ)
    (image : Image) (var : Option ℚ) (IR : Bool) (cv_image : Bool) :
    PyResult (Image × List ℚ) :=
  let image1 := if IR then convert_la image else image
  let (v, rng1) :=
    match var with
    | some v => (v, rng)
    | none =>
      let (k, r2) := randint rng 1 3
      ((1 / 100 : ℚ) * k, r2)
  let (noisy, rng2) := rn_gauss v rng1 image1
  let out := if IR then convert_rgb noisy else noisy
  PyResult.ok (out, rng2)

/-- `poisson` (lines 100–138): same LA/RGB round trip as `gaussian`, no
tunable parameter. -/
def poisson (rn_poisson : List ℚ → Image → Image × List ℚ) (rng : List ℚ)
    (image : Image) (IR : Bool) (cv_image : Bool) : PyResult (Image × List ℚ) :=
  let image1 := if IR then convert_la image else image
  let (noisy, rng2) := rn_poisson rng image1
  let out := if IR then convert_rgb noisy else noisy
  PyResult.ok (out, rng2)

/-- One sample under `random_noise(mode='s&p', amount)`: salt with
probability `amount/2`, pepper with probability `amount/2`, else kept. -/
def sp_sample (amount u : ℚ) (v : Nat) : Nat :=
  if u < amount / 2 then 255 else if u < amount then 0 else v

/-- The unseeded salt-and-pepper draw over all samples. -/
def sp_noise (amount : ℚ) : List ℚ → List Nat → List Nat × List ℚ
  | rng, [] => ([], rng)
  | rng, v :: rest =>
    let (u, rng1) := rand_next rng
    let (tail, rng2) := sp_noise amount rng1 rest
    (sp_sample amount u v :: tail, rng2)

/-- `salt_and_pepper` (lines 141–176).  On the PIL path (`IR` and not
`cv_image`) the image is grayscaled first; the default amount is
`.001 * random.randint(3, 6)`.  There is no conversion back to three
channels: the noisy single-plane (or as-supplied) array is returned. -/
def salt_and_pepper (rng : List ℚ) (image : Image) (grain_amount : Option ℚ)
    (IR : Bool) (cv_image : Bool) : PyResult (Image × List ℚ) :=
  let image1 := if IR && !cv_image then grayscale image else image
  let (amount, rng1) :=
    match grain_amount with
    | some a => (a, rng)
    | none =>
      let (k, r2) := randint rng 3 6
      ((1 / 1000 : ℚ) * k, r2)
  let (d2, rng2) := sp_noise amount rng1 image1.data
  PyResult.ok ({ image1 with data := d2 }, rng2)

/-! ### Exposure convergence loops (`under_expose`, `over_expose`)

Both functions assign their loop bounds (`desired` together with `floor`,
respectively `ceiling`) only inside the `gamma == None` branch, and the
standalone branch of `over_expose` assigns `floor = .9` while the loop
reads `ceiling`.  The embedding therefore keeps each bound as an
`Option ℚ`, `none` meaning "this local variable was never assigned", and
reading an unassigned variable is a `NameError` — exactly Python's
behaviour.  `ag` stands for `skimage.exposure.adjust_gamma` on the numpy
array and `expQ` for `math.exp`. -/

/-- Reading the local variable `n`; `none` is an unassigned local. -/
def read_local (v : Option ℚ) (n : String) : Except String ℚ :=
  match v with
  | some x => Except.ok x
  | none => Except.error n

/-- The loop condition of `over_expose` (line 288):
`new_gamma < desired or new_gamma > ceiling`, with Python's left-to-right
short-circuit evaluation. -/
def over_cond (desired ceiling : Option ℚ) (ng : ℚ) : Except String Bool := do
  let d ← read_local desired "desired"
  if ng < d then pure true
  else
    let c ← read_local ceiling "ceiling"
    pure (decide (c < ng))

/-- The loop body of `over_expose` (lines 291–296): nudge `gamma` down a
quarter-scaled draw if the mean is below `desired`, up one if it is above
`ceiling`. -/
def over_step (desired ceiling : Option ℚ) (ng gamma : ℚ) (rng : List ℚ) :
    Except String (ℚ × List ℚ) := do
  let d ← read_local desired "desired"
  if ng < d then
    let (u, rng1) := rand_next rng
    pure (gamma - (1 / 4) * u, rng1)
  else
    let c ← read_local ceiling "ceiling"
    if c < ng then
      let (u, rng1) := rand_next rng
      pure (gamma + (1 / 4) * u, rng1)
    else pure (gamma, rng)

/-- The do-while shape of `over_expose` (lines 282–300): apply the gamma
remap to the ORIGINAL image, recompute the mean, re-check the condition.
`fuel` bounds the number of further iterations; the source loop is
unbounded. -/
def over_loop (ag : ℚ → Image → Image) (image : Image)
    (desired ceiling : Option ℚ) : Nat → List ℚ → ℚ → PyResult (Image × List ℚ)
  | 0, rng, gamma =>
    match over_cond desired ceiling (ag gamma image).meanLum with
    | Except.error n => PyResult.nameError n
    | Except.ok false => PyResult.ok (ag gamma image, rng)
    | Except.ok true => PyResult.fuelOut
  | Nat.succ f, rng, gamma =>
    match over_cond desired ceiling (ag gamma image).meanLum with
    | Except.error n => PyResult.nameError n
    | Except.ok false => PyResult.ok (ag gamma image, rng)
    | Except.ok true =>
      match over_step desired ceiling (ag gamma image).meanLum gamma rng with
      | Except.error n => PyResult.nameError n
      | Except.ok (g2, rng2) => over_loop ag image desired ceiling f rng2 g2

/-- `over_expose` (lines 242–303).  With `gamma` unspecified the defaults
are: environment branch `desired = original*1.2`, `ceiling = .75`;
standalone branch `desired = .85` and `floor = .9` — note that the
standalone branch leaves `ceiling` unassigned, and `floorv` below is the
variable the loop never reads.  The seed gamma is
`exp(desired-original)-1`, floored to `.1` when non-positive.  With
`gamma` supplied, none of the bounds is ever assigned. -/
def over_expose (ag : ℚ → Image → Image) (expQ : ℚ → ℚ) (rng : List ℚ)
    (fuel : Nat) (image : Image) (gamma : Option ℚ) (environment_flag : Bool) :
    PyResult (Image × List ℚ) :=
  match gamma with
  | some g => over_loop ag image none none fuel rng g
  | none =>
    let original := image.meanLum
    let desired : ℚ := if environment_flag then original * (6 / 5) else 17 / 20
    let ceiling : Option ℚ := if environment_flag then some (3 / 4) else none
    let floorv : Option ℚ := if environment_flag then none else some (9 / 10)
    let g0 := expQ (desired - original) - 1
    let g1 := if g0 ≤ 0 then (1 / 10 : ℚ) else g0
    over_loop ag image (some desired) ceiling fuel rng g1

/-- The loop condition of `under_expose` (line 224):
`new_gamma > desired or new_gamma < floor`. -/
def under_cond (desired floorv : Option ℚ) (ng : ℚ) : Except String Bool := do
  let d ← read_local desired "desired"
  if d < ng then pure true
  else
    let f ← read_local floorv "floor"
    pure (decide (ng < f))

/-- The loop body of `under_expose` (lines 227–232): the `floor` test
comes first in the source. -/
def under_step (desired floorv : Option ℚ) (ng gamma : ℚ) (rng : List ℚ) :
    Except String (ℚ × List ℚ) := do
  let f ← read_local floorv "floor"
  if ng < f then
    let (u, rng1) := rand_next rng
    pure (gamma - (1 / 4) * u, rng1)
  else
    let d ← read_local desired "desired"
    if d < ng then
      let (u, rng1) := rand_next rng
      pure (gamma + (1 / 4) * u, rng1)
    else pure (gamma, rng)

/-- The do-while shape of `under_expose` (lines 218–236). -/
def under_loop (ag : ℚ → Image → Image) (image : Image)
    (desired floorv : Option ℚ) : Nat → List ℚ → ℚ → PyResult (Image × List ℚ)
  | 0, rng, gamma =>
    match under_cond desired floorv (ag gamma image).meanLum with
    | Except.error n => PyResult.nameError n
    | Except.ok false => PyResult.ok (ag gamma image, rng)
    | Except.ok true => PyResult.fuelOut
  | Nat.succ f, rng, gamma =>
    match under_cond desired floorv (ag gamma image).meanLum with
    | Except.error n => PyResult.nameError n
    | Except.ok false => PyResult.ok (ag gamma image, rng)
    | Except.ok true =>
      match under_step desired floorv (ag gamma image).meanLum gamma rng with
      | Except.error n => PyResult.nameError n
      | Except.ok (g2, rng2) => under_loop ag image desired floorv f rng2 g2

/-- `under_expose` (lines 179–239).  Defaults: environment branch
`desired = original*.8`, `floor = .1`; standalone branch `desired = .15`,
`floor = .03`; seed gamma `exp(1+original-desired)`.  With `gamma`
supplied, neither bound is ever assigned. -/
def under_expose (ag : ℚ → Image → Image) (expQ : ℚ → ℚ) (rng : List ℚ)
    (fuel : Nat) (image : Image) (gamma : Option ℚ) (environment_flag : Bool) :
    PyResult (Image × List ℚ) :=
  match gamma with
  | some g => under_loop ag image none none fuel rng g
  | none =>
    let original := image.meanLum
    let desired : ℚ := if environment_flag then original * (4 / 5) else 3 / 20
    let floorv : ℚ := if environment_flag then 1 / 10 else 3 / 100
    let g0 := expQ (1 + original - desired)
    under_loop ag image (some desired) (some floorv) fuel rng g0

/-! ### Environment Noise Library geometry
(`noise_generators_environment.py`)

The mask layer is modelled by ideal rasterisation: a pixel belongs to a
filled `cv.ellipse` / `cv.drawContours` region exactly when its centre
satisfies the region's defining inequalities (boundaries included, as in
a filled contour).  Binary mask combinators follow the 0/255 arithmetic
of the source: `cv.subtract` saturates at 0, `cv.bitwise_xor` /
`bitwise_or` / `bitwise_not` are the boolean operations. -/

/-- The normalised quadratic form of the ellipse with centre `(xc, yc)`,
half-axes `rx, ry` and rotation given by its cosine/sine pair `(c, s)`,
evaluated at pixel `(x, y)`. -/
def ellipse_val (xc yc : ℤ) (rx ry c s : ℚ) (x y : ℤ) : ℚ :=
  (c * ((x : ℚ) - (xc : ℚ)) + s * ((y : ℚ) - (yc : ℚ))) ^ 2 / (rx * rx) +
  (c * ((y : ℚ) - (yc : ℚ)) - s * ((x : ℚ) - (xc : ℚ))) ^ 2 / (ry * ry)

/-- Membership of pixel `(x, y)` in the filled ellipse. -/
def in_ellipse (xc yc : ℤ) (rx ry c s : ℚ) (x y : ℤ) : Bool :=
  decide (ellipse_val xc yc rx ry c s x y ≤ 1)

/-- The primary radius of a point effect: `int(np.floor(scale * min(hh,ww)))`
with `scale = .01 * k`, `k = random.randint(5, 35)` (lines 48–53). -/
def point_radius (k m : Nat) : Nat := k * m / 100

/-- The blend radius `int(radius * 1.05)` (lines 58–59); for the radii the
generator produces, the float product `radius * 1.05` truncates to the
rational floor of `21·r/20` (the stored double `1.05` exceeds `21/20` by
`≈ 4.4e-17`, far less than the distance from `21·r/20` to the next lower
integer). -/
def blend_radius (r : Nat) : Nat := 21 * r / 20

/-- `cv.subtract` on a pair of binary mask samples. -/
def mask_sub (b p : Bool) : Bool := b && !p

/-- Count a mask sample: used to express "each pixel is covered exactly
once" as a sum of coverage counts. -/
def b2n (b : Bool) : Nat := if b then 1 else 0

/-- The effect-region mask of `point_source` / `point_shadow`: the primary
ellipse (`overlay`, lines 68–69 / 137–138). -/
def point_effect_mask (xc yc : ℤ) (rx ry c s : ℚ) (x y : ℤ) : Bool :=
  in_ellipse xc yc rx ry c s x y

/-- The transition mask: `cv.subtract(mask_blend, mask)` (line 74 / 143),
the blend ellipse minus the primary ellipse. -/
def point_transition_mask (xc yc : ℤ) (rx ry rbx rby c s : ℚ) (x y : ℤ) : Bool :=
  mask_sub (in_ellipse xc yc rbx rby c s x y) (in_ellipse xc yc rx ry c s x y)

/-- The background mask: `cv.bitwise_not(mask_blend)` (line 75 / 144). -/
def point_background_mask (xc yc : ℤ) (rbx rby c s : ℚ) (x y : ℤ) : Bool :=
  !(in_ellipse xc yc rbx rby c s x y)

/-- Height of the slanted cut line of a streak/pipe polygon above column
`x`: linear interpolation between the left cut (at `x = 0`) and the right
cut (at `x = ww`). -/
def line_y (c0 cw ww x : ℤ) : ℚ :=
  (c0 : ℚ) + ((cw : ℚ) - (c0 : ℚ)) * (x : ℚ) / (ww : ℚ)

/-- A filled top-slice polygon `[[0,0],[ww,0],[ww,cr],[0,cl]]`: everything
on or above the cut line. -/
def top_slice_mask (cl cr ww : ℤ) (x y : ℤ) : Bool :=
  decide ((y : ℚ) ≤ line_y cl cr ww x)

/-- `blend_slice = .01 * np.minimum(hh, ww)` (line 205/277/357/453),
modelled exactly as a rational. -/
def blend_slice (hh ww : ℤ) : ℚ := (min hh ww : ℤ) / 100

/-- The effect mask of `streak_source`: the polygon over `pts` (line 212). -/
def streak_effect_mask (cl cr ww : ℤ) (x y : ℤ) : Bool :=
  top_slice_mask cl cr ww x y

/-- The blend polygon cuts of `streak_source`: `int(cut + blend_slice)`
(lines 206–207); Python `int` truncates, and the cuts are non-negative,
so it is the rational floor. -/
def streak_blend_cut (cut : ℤ) (bs : ℚ) : ℤ := ⌊(cut : ℚ) + bs⌋

/-- The transition mask of `streak_source`:
`cv.bitwise_xor(mask_blend, mask)` (line 219). -/
def streak_transition_mask (cl cr ww : ℤ) (bs : ℚ) (x y : ℤ) : Bool :=
  xor (top_slice_mask (streak_blend_cut cl bs) (streak_blend_cut cr bs) ww x y)
    (top_slice_mask cl cr ww x y)

/-- The background mask of `streak_source`:
`cv.bitwise_not(cv.bitwise_or(mask, mask_blend))` (line 220). -/
def streak_background_mask (cl cr ww : ℤ) (bs : ℚ) (x y : ℤ) : Bool :=
  !(top_slice_mask cl cr ww x y ||
    top_slice_mask (streak_blend_cut cl bs) (streak_blend_cut cr bs) ww x y)

/-- The pipe band of `pipe_source` / `pipe_shadow`: the polygon over `pts`
(lines 352, 369), between the top and bottom cut lines. -/
def pipe_effect_mask (tl tr bl br ww : ℤ) (x y : ℤ) : Bool :=
  decide (line_y tl tr ww x ≤ (y : ℚ) ∧ (y : ℚ) ≤ line_y bl br ww x)

/-- The top slab above the pipe: the polygon over `pts_top` (line 353). -/
def pipe_top_mask (tl tr ww : ℤ) (x y : ℤ) : Bool :=
  top_slice_mask tl tr ww x y

/-- The bottom slab below the pipe: the polygon over `pts_bottom`
(line 354): everything on or below the bottom cut line. -/
def pipe_bottom_mask (bl br ww : ℤ) (x y : ℤ) : Bool :=
  decide (line_y bl br ww x ≤ (y : ℚ))

/-- The upper transition band of `pipe_source`:
`cv.bitwise_xor(mask_top, mask_blend_top)` (line 382), where the blend-top
polygon uses the cuts `int(top_cut - blend_slice)` (lines 358–359). -/
def pipe_band_top (tl tr ww : ℤ) (bs : ℚ) (x y : ℤ) : Bool :=
  xor (pipe_top_mask tl tr ww x y)
    (pipe_top_mask ⌊(tl : ℚ) - bs⌋ ⌊(tr : ℚ) - bs⌋ ww x y)

/-- The lower transition band of `pipe_source`:
`cv.bitwise_xor(overlay_bottom, blend_bottom)` (line 383), with blend cuts
`int(bottom_cut + blend_slice)` (lines 360–361). -/
def pipe_band_bottom (bl br ww : ℤ) (bs : ℚ) (x y : ℤ) : Bool :=
  xor (pipe_bottom_mask bl br ww x y)
    (pipe_bottom_mask ⌊(bl : ℚ) + bs⌋ ⌊(br : ℚ) + bs⌋ ww x y)

/-- The transition region of `pipe_source` as one mask: the two blend
bands that are separately bitwise-ANDed with the blurred ingredient
(lines 393–394) and both added into the composite (line 399). -/
def pipe_transition_mask (tl tr bl br ww : ℤ) (bs : ℚ) (x y : ℤ) : Bool :=
  pipe_band_top tl tr ww bs x y || pipe_band_bottom bl br ww bs x y

/-- The background mask of `pipe_source`: `cv.bitwise_not(total)` with
`total = blend_top ∨ blend_bottom ∨ mask` (lines 384–385). -/
def pipe_background_mask (tl tr bl br ww : ℤ) (bs : ℚ) (x y : ℤ) : Bool :=
  !(pipe_transition_mask tl tr bl br ww bs x y || pipe_effect_mask tl tr bl br ww x y)

/-! ### Explicit-angle branches and the functions with unbound names -/

/-- The explicit-angle branch of `streak_source` (lines 195–199):
`assert(streak_angle > 0 and streak_angle < 180)` followed by
`raise ValueError('Function to come')`.  A failing `assert` raises
`AssertionError`. -/
def streak_source_angle_branch (streak_angle : ℚ) : PyResult Image :=
  if 0 < streak_angle ∧ streak_angle < 180 then PyResult.valueError "Function to come"
  else PyResult.assertionError

/-- The explicit-angle branch of `streak_shadow` (lines 270–274): the same
two statements. -/
def streak_shadow_angle_branch (streak_angle : ℚ) : PyResult Image :=
  if 0 < streak_angle ∧ streak_angle < 180 then PyResult.valueError "Function to come"
  else PyResult.assertionError

/-- The explicit-angle branch of `pipe_source` (lines 345–349): the same
two statements over `pipe_angle`. -/
def pipe_source_angle_branch (pipe_angle : ℚ) : PyResult Image :=
  if 0 < pipe_angle ∧ pipe_angle < 180 then PyResult.valueError "Function to come"
  else PyResult.assertionError

/-- `streak_shadow` invoked without an angle (lines 261–308): the random
cuts and blend geometry are computed, but line 284 then draws the primary
mask from `pts` — a name assigned nowhere in `streak_shadow` (unlike
`streak_source`, which builds `pts` at line 202) — so the call raises
`NameError: pts` before any region mask exists.  With an angle it runs
the branch `streak_shadow_angle_branch`. -/
def streak_shadow (rng : List ℚ) (image : Image) (streak_angle : Option ℚ)
    (IR : Bool) : PyResult Image :=
  match streak_angle with
  | some a => streak_shadow_angle_branch a
  | none => PyResult.nameError "pts"

/-- `pipe_shadow` (lines 405–498): its parameters are
`(image, randomize=True, IR=True)` — there is no angle parameter, although
the docstring advertises one — and its first branch (line 429) reads
`pipe_angle`, a name bound neither as a parameter nor anywhere else, so
every invocation raises `NameError: pipe_angle` before any other work.
(The enclosing module moreover never loads; see
`environment_import_always_fails`.) -/
def pipe_shadow (image : Image) (randomize IR : Bool) : PyResult Image :=
  PyResult.nameError "pipe_angle"

/-! ### The removal operation (`noise_faces.py`, `reset_noises`) -/

/-- Every top-level name bound in `noise_faces.py`: imports (lines 3–19,
including the per-name imports of lines 18–19), the two globals and the
function definitions.  Note the camera transforms are imported under the
names `poor_focus`, `dark_noise`, `shot_noise` — `blur`, `gaussian`,
`poisson` are bound nowhere. -/
def noise_faces_names : List String :=
  ["os", "shutil", "time", "glob", "random", "np", "json", "mp", "argparse",
   "cv", "Image", "ImageOps",
   "poor_focus", "dark_noise", "shot_noise", "salt_and_pepper",
   "under_expose", "over_expose",
   "point_source", "point_shadow", "streak_source", "streak_shadow",
   "pipe_source", "pipe_shadow",
   "MODE", "NOISE",
   "image_write", "parse_args", "noise_helper", "noisify_data", "reset_noises"]

/-- The function identifiers listed in `reset_noises` (lines 256–258):
`camera_noises = [blur, gaussian, poisson, salt_and_pepper]` followed by
`exposures = [under_expose, over_expose]`; each entry both resolves as a
name and supplies the `__name__` used to build the directory to delete. -/
def reset_noise_list : List String :=
  ["blur", "gaussian", "poisson", "salt_and_pepper", "under_expose", "over_expose"]

/-- A write tree: one entry per subject directory, with the names of its
subdirectories. -/
def WriteTree := List (String × List String)

/-- `reset_noises` (lines 234–279) over a write tree.  Building the
`camera_noises` list evaluates each identifier in the module namespace;
the first one not bound there raises a `NameError` and nothing is deleted.
Were all names bound, the loop would delete exactly the subdirectories
named after the listed transforms under each subject directory. -/
def reset_noises (tree : WriteTree) : PyResult Unit × WriteTree :=
  match reset_noise_list.find? (fun n => !(noise_faces_names.contains n)) with
  | some n => (PyResult.nameError n, tree)
  | none =>
    (PyResult.ok (),
     tree.map fun pd => (pd.1, pd.2.filter fun d => !(reset_noise_list.contains d)))

/-- Extract only the image of a transform result, discarding the threaded
generator state (two sequential Python calls share the global generator,
so they observe different states: bit-identical outputs are a statement
about the image component). -/
def result_image : PyResult (Image × List ℚ) → PyResult Image
  | PyResult.ok (im, _) => PyResult.ok im
  | PyResult.nameError n => PyResult.nameError n
  | PyResult.importError n => PyResult.importError n
  | PyResult.valueError n => PyResult.valueError n
  | PyResult.assertionError => PyResult.assertionError
  | PyResult.axisError => PyResult.axisError
  | PyResult.fuelOut => PyResult.fuelOut

/-- A 1×1 2-D grayscale test image (one 8-bit sample). -/
def img_gray1 : Image := { rows := 1, cols := 1, channels := none, data := [100] }

/-- A 1×1 3-channel (RGB) test image. -/
def img_rgb1 : Image := { rows := 1, cols := 1, channels := some 3, data := [100, 100, 100] }

/-! ## Theorems -/

/-- Evaluating the environment-module load on the two name tables: the
first requested name missing from the camera module is `poor_focus`. -/
theorem environment_call_eq (t : EnvNoise) (image : Image) :
    environment_call t image = PyResult.importError "poor_focus" := rfl

/-- **C2**: every function of the Environment Noise Library fails with a
name-resolution error before returning an image: the line-22 import
requests `poor_focus`, `dark_noise`, `shot_noise` from the camera module,
which defines those transforms only as `blur`, `gaussian`, `poisson`, so
the import — and with it every call to the six environment effects —
fails on the first missing name. -/
theorem environment_import_always_fails :
    ∀ (t : EnvNoise) (image : Image),
      environment_call t image = PyResult.importError "poor_focus" := by
  intro t image
  exact environment_call_eq t image

/-- **C6**: with an explicitly supplied gamma, both `under_expose` and
`over_expose` raise a `NameError`: the loop bounds are assigned only in
the `gamma == None` branch, and the loop condition reads `desired` on its
first evaluation. -/
theorem explicit_gamma_always_name_errors :
    ∀ (ag : ℚ → Image → Image) (expQ : ℚ → ℚ) (rng : List ℚ) (fuel : Nat)
      (image : Image) (g : ℚ) (environment_flag : Bool),
      under_expose ag expQ rng fuel image (some g) environment_flag =
        PyResult.nameError "desired" ∧
      over_expose ag expQ rng fuel image (some g) environment_flag =
        PyResult.nameError "desired" := by
  intro ag expQ rng fuel image g environment_flag
  constructor
  · show under_loop ag image none none fuel rng g = PyResult.nameError "desired"
    cases fuel <;> simp [under_loop, under_cond, read_local, Except.bind, bind]
  · show over_loop ag image none none fuel rng g = PyResult.nameError "desired"
    cases fuel <;> simp [over_loop, over_cond, read_local, Except.bind, bind]

/-- With `ceiling` unassigned, the `over_expose` loop condition can never
evaluate to `False`: either the mean is below `desired` (condition `True`
by short-circuit) or the read of `ceiling` raises. -/
theorem over_cond_no_ceiling_ne_false (desired : Option ℚ) (ng : ℚ) :
    over_cond desired none ng ≠ Except.ok false := by
  cases desired with
  | none => simp [over_cond, read_local, Except.bind, bind]
  | some d =>
    by_cases h : ng < d <;>
      simp [over_cond, read_local, Except.bind, bind, h, pure, Except.pure]

/-- With `ceiling` unassigned, the `over_expose` loop never reaches a
normal return, whatever the gamma remap, the draws and the iteration
bound: exiting would require the condition to be `False`. -/
theorem over_loop_no_ceiling_never_ok (ag : ℚ → Image → Image) (image : Image)
    (desired : Option ℚ) :
    ∀ (fuel : Nat) (rng : List ℚ) (gamma : ℚ),
      (over_loop ag image desired none fuel rng gamma).isOk = false := by
  intro fuel
  induction fuel with
  | zero =>
    intro rng gamma
    rcases h : over_cond desired none ((ag gamma image).meanLum) with n | b
    · simp [over_loop, h, PyResult.isOk]
    · cases b with
      | false => exact absurd h (over_cond_no_ceiling_ne_false _ _)
      | true => simp [over_loop, h, PyResult.isOk]
  | succ f ih =>
    intro rng gamma
    rcases h : over_cond desired none ((ag gamma image).meanLum) with n | b
    · simp [over_loop, h, PyResult.isOk]
    · cases b with
      | false => exact absurd h (over_cond_no_ceiling_ne_false _ _)
      | true =>
        rcases h2 : over_step desired none ((ag gamma image).meanLum) gamma rng
          with n | gr
        · simp [over_loop, h, h2, PyResult.isOk]
        · simp [over_loop, h, h2, ih]

/-- **C1**: `over_expose` with gamma unspecified and
`environment_flag = False` never terminates with an image at all — so in
particular never with mean luminance in `[0.85, 0.9]`.  The standalone
branch assigns `desired = .85` and `floor = .9` but the loop reads
`ceiling`, which that branch never assigns: as soon as the mean reaches
`desired` the condition raises `NameError: ceiling`, and before that the
loop only keeps iterating. -/
theorem over_expose_standalone_never_returns :
    ∀ (ag : ℚ → Image → Image) (expQ : ℚ → ℚ) (rng : List ℚ) (fuel : Nat)
      (image : Image),
      (over_expose ag expQ rng fuel image none false).isOk = false := by
  intro ag expQ rng fuel image
  simp only [over_expose, if_neg Bool.false_ne_true]
  exact over_loop_no_ceiling_never_ok ag image _ fuel rng _

/-- **C7**: the removal operation never removes anything: building the
`camera_noises` list resolves the identifier `blur`, which `noise_faces.py`
does not bind (its import renames the transforms to `poor_focus`,
`dark_noise`, `shot_noise`), so `reset_noises` raises `NameError: blur`
before its deletion loop and leaves every tree unchanged. -/
theorem reset_noises_name_error :
    ∀ (tree : WriteTree),
      reset_noises tree = (PyResult.nameError "blur", tree) := by
  intro tree
  rfl

/-- **C3, counterexample**: two `salt_and_pepper` calls with the grain
amount pinned to `.003` on the same 1×1 grayscale image give different
outputs: `random_noise` is invoked with `seed=None`, so each call draws
from the advancing global generator — here states whose next uniforms are
`.001` (below `amount/2`: the sample becomes salt) and `.9` (the sample is
kept).  Pinning every randomized parameter does not make the transform
bit-identical across calls. -/
theorem pinned_salt_and_pepper_differs :
    salt_and_pepper [(1 : ℚ)/1000] img_gray1 (some ((3 : ℚ)/1000)) true true ≠
      salt_and_pepper [(9 : ℚ)/10] img_gray1 (some ((3 : ℚ)/1000)) true true := by
  norm_num [salt_and_pepper, sp_noise, sp_sample, rand_next, img_gray1]

/-- **C3, amended**: pinning the parameter removes all randomness from
`blur` (its only draw is the default `sigma`), but `gaussian`, `poisson`
and `salt_and_pepper` call `skimage.util.random_noise` with `seed=None`
even when their parameters are supplied, so their outputs still depend on
the hidden global generator state and two calls need not be
bit-identical. -/
theorem pinned_parameters_deterministic_only_for_blur :
    (∀ (gf : Nat → Image → Image) (r r' : List ℚ) (image : Image) (s : Nat)
        (IR : Bool),
        result_image (blur gf r image (some s) IR) =
          result_image (blur gf r' image (some s) IR)) ∧
    (∃ (r1 r2 : List ℚ) (image : Image) (a : ℚ),
        result_image (salt_and_pepper r1 image (some a) true true) ≠
          result_image (salt_and_pepper r2 image (some a) true true)) := by
  constructor
  · intro gf r r' image s IR
    cases h : image.channels <;> simp [blur, h, result_image]
  · exact ⟨[(1 : ℚ)/1000], [(9 : ℚ)/10], img_gray1, (3 : ℚ)/1000, by
      norm_num [salt_and_pepper, sp_noise, sp_sample, rand_next, img_gray1,
        result_image]⟩

/-- **C10, counterexample**: `salt_and_pepper` with the infrared flag set
(PIL path) grayscales its 3-channel input and returns the noisy
single-plane array as is — the result has no third dimension at all, so it
is not expanded back to three channels. -/
theorem salt_and_pepper_ir_no_three_channel :
    salt_and_pepper [(9 : ℚ)/10] img_rgb1 (some ((3 : ℚ)/1000)) true false =
      PyResult.ok ({ rows := 1, cols := 1, channels := none, data := [100] }, []) ∧
    (Image.channels { rows := 1, cols := 1, channels := none, data := [100] }) ≠
      some 3 := by
  constructor
  · norm_num [salt_and_pepper, grayscale, Image.sampleCount, chunks, pil_luma,
      sp_noise, sp_sample, rand_next, img_rgb1]
  · simp

/-- **C10, amended**: only `gaussian` and `poisson` perform the
luma-plus-alpha round trip and expand the result back to three channels in
infrared mode; `blur` accepts the infrared flag and ignores it entirely,
and `salt_and_pepper` only grayscales its PIL input, returning a
single-plane image (the exposure transforms take no infrared flag at
all). -/
theorem infrared_round_trip_only_gaussian_poisson :
    (∀ (rn : ℚ → List ℚ → Image → Image × List ℚ) (rng : List ℚ)
        (image : Image) (var : Option ℚ) (cv_image : Bool) (out : Image)
        (rng2 : List ℚ),
        gaussian rn rng image var true cv_image = PyResult.ok (out, rng2) →
        out.channels = some 3) ∧
    (∀ (rn : List ℚ → Image → Image × List ℚ) (rng : List ℚ) (image : Image)
        (cv_image : Bool) (out : Image) (rng2 : List ℚ),
        poisson rn rng image true cv_image = PyResult.ok (out, rng2) →
        out.channels = some 3) ∧
    (∀ (gf : Nat → Image → Image) (rng : List ℚ) (image : Image)
        (sigma : Option Nat),
        blur gf rng image sigma true = blur gf rng image sigma false) ∧
    (∀ (rng : List ℚ) (image : Image) (a : ℚ) (out : Image) (rng2 : List ℚ),
        salt_and_pepper rng image (some a) true false = PyResult.ok (out, rng2) →
        out.channels = none) := by
  refine ⟨?_, ?_, ?_, ?_⟩
  · intro rn rng image var cv_image out rng2 h
    cases var <;>
      · simp only [gaussian, if_true] at h
        cases h1 : (rn _ _ (convert_la image)) with
        | mk noisy rng3 =>
          rw [h1] at h
          cases h
          rfl
  · intro rn rng image cv_image out rng2 h
    simp only [poisson, if_true] at h
    cases h1 : rn rng (convert_la image) with
    | mk noisy rng3 =>
      rw [h1] at h
      cases h
      rfl
  · intro gf rng image sigma
    rfl
  · intro rng image a out rng2 h
    simp only [salt_and_pepper, Bool.not_false, Bool.and_self, if_true] at h
    cases h1 : sp_noise a rng (grayscale image).data with
    | mk d2 rng3 =>
      rw [h1] at h
      cases h
      rfl

/-- The PIL conversions only re-arrange samples within each pixel: the
spatial grid is untouched. -/
theorem shape2_convert_la (im : Image) : shape2 (convert_la im) = shape2 im := rfl

/-- `convert("RGB")` preserves the spatial grid. -/
theorem shape2_convert_rgb (im : Image) : shape2 (convert_rgb im) = shape2 im := rfl

/-- `ImageOps.grayscale` preserves the spatial grid. -/
theorem shape2_grayscale (im : Image) : shape2 (grayscale im) = shape2 im := rfl

/-- A normal return of the `over_expose` loop is always a gamma remap of
the original image. -/
theorem over_loop_ok_is_remap (ag : ℚ → Image → Image) (image : Image)
    (desired ceiling : Option ℚ) :
    ∀ (fuel : Nat) (rng : List ℚ) (gamma : ℚ) (out : Image) (rng2 : List ℚ),
      over_loop ag image desired ceiling fuel rng gamma = PyResult.ok (out, rng2) →
      ∃ g, out = ag g image := by
  intro fuel
  induction fuel with
  | zero =>
    intro rng gamma out rng2 h
    simp only [over_loop] at h
    rcases hc : over_cond desired ceiling ((ag gamma image).meanLum) with n | b
    · rw [hc] at h; simp at h
    · cases b with
      | false =>
        rw [hc] at h
        simp only [PyResult.ok.injEq, Prod.mk.injEq] at h
        exact ⟨gamma, h.1.symm⟩
      | true => rw [hc] at h; simp at h
  | succ f ih =>
    intro rng gamma out rng2 h
    simp only [over_loop] at h
    rcases hc : over_cond desired ceiling ((ag gamma image).meanLum) with n | b
    · rw [hc] at h; simp at h
    · cases b with
      | false =>
        rw [hc] at h
        simp only [PyResult.ok.injEq, Prod.mk.injEq] at h
        exact ⟨gamma, h.1.symm⟩
      | true =>
        rw [hc] at h
        rcases hs : over_step desired ceiling ((ag gamma image).meanLum) gamma rng
          with n | gr
        · rw [hs] at h; simp at h
        · rw [hs] at h; exact ih gr.2 gr.1 out rng2 h

/-- A normal return of the `under_expose` loop is always a gamma remap of
the original image. -/
theorem under_loop_ok_is_remap (ag : ℚ → Image → Image) (image : Image)
    (desired floorv : Option ℚ) :
    ∀ (fuel : Nat) (rng : List ℚ) (gamma : ℚ) (out : Image) (rng2 : List ℚ),
      under_loop ag image desired floorv fuel rng gamma = PyResult.ok (out, rng2) →
      ∃ g, out = ag g image := by
  intro fuel
  induction fuel with
  | zero =>
    intro rng gamma out rng2 h
    simp only [under_loop] at h
    rcases hc : under_cond desired floorv ((ag gamma image).meanLum) with n | b
    · rw [hc] at h; simp at h
    · cases b with
      | false =>
        rw [hc] at h
        simp only [PyResult.ok.injEq, Prod.mk.injEq] at h
        exact ⟨gamma, h.1.symm⟩
      | true => rw [hc] at h; simp at h
  | succ f ih =>
    intro rng gamma out rng2 h
    simp only [under_loop] at h
    rcases hc : under_cond desired floorv ((ag gamma image).meanLum) with n | b
    · rw [hc] at h; simp at h
    · cases b with
      | false =>
        rw [hc] at h
        simp only [PyResult.ok.injEq, Prod.mk.injEq] at h
        exact ⟨gamma, h.1.symm⟩
      | true =>
        rw [hc] at h
        rcases hs : under_step desired floorv ((ag gamma image).meanLum) gamma rng
          with n | gr
        · rw [hs] at h; simp at h
        · rw [hs] at h; exact ih gr.2 gr.1 out rng2 h

/-- **C9**: every transform that returns an image preserves the spatial
dimensions: `output.shape[:2] == input.shape[:2]`.  For the camera
transforms this holds whenever the underlying skimage primitive preserves
them (which `filters.gaussian`, `random_noise` and `adjust_gamma` do); a
2-D input to `blur` and every environment-effect invocation return no
image at all, so the property holds for every image actually returned. -/
theorem all_transforms_preserve_shape :
    (∀ (gf : Nat → Image → Image) (rng : List ℚ) (image : Image)
        (sigma : Option Nat) (IR : Bool) (out : Image) (rng2 : List ℚ),
        (∀ s im, shape2 (gf s im) = shape2 im) →
        blur gf rng image sigma IR = PyResult.ok (out, rng2) →
        shape2 out = shape2 image) ∧
    (∀ (rn : ℚ → List ℚ → Image → Image × List ℚ) (rng : List ℚ)
        (image : Image) (var : Option ℚ) (IR cv_image : Bool) (out : Image)
        (rng2 : List ℚ),
        (∀ v r im, shape2 (rn v r im).1 = shape2 im) →
        gaussian rn rng image var IR cv_image = PyResult.ok (out, rng2) →
        shape2 out = shape2 image) ∧
    (∀ (rn : List ℚ → Image → Image × List ℚ) (rng : List ℚ) (image : Image)
        (IR cv_image : Bool) (out : Image) (rng2 : List ℚ),
        (∀ r im, shape2 (rn r im).1 = shape2 im) →
        poisson rn rng image IR cv_image = PyResult.ok (out, rng2) →
        shape2 out = shape2 image) ∧
    (∀ (rng : List ℚ) (image : Image) (grain_amount : Option ℚ)
        (IR cv_image : Bool) (out : Image) (rng2 : List ℚ),
        salt_and_pepper rng image grain_amount IR cv_image =
          PyResult.ok (out, rng2) →
        shape2 out = shape2 image) ∧
    (∀ (ag : ℚ → Image → Image) (expQ : ℚ → ℚ) (rng : List ℚ) (fuel : Nat)
        (image : Image) (gamma : Option ℚ) (environment_flag : Bool)
        (out : Image) (rng2 : List ℚ),
        (∀ g im, shape2 (ag g im) = shape2 im) →
        under_expose ag expQ rng fuel image gamma environment_flag =
          PyResult.ok (out, rng2) →
        shape2 out = shape2 image) ∧
    (∀ (ag : ℚ → Image → Image) (expQ : ℚ → ℚ) (rng : List ℚ) (fuel : Nat)
        (image : Image) (gamma : Option ℚ) (environment_flag : Bool)
        (out : Image) (rng2 : List ℚ),
        (∀ g im, shape2 (ag g im) = shape2 im) →
        over_expose ag expQ rng fuel image gamma environment_flag =
          PyResult.ok (out, rng2) →
        shape2 out = shape2 image) ∧
    (∀ (t : EnvNoise) (image out : Image),
        environment_call t image = PyResult.ok out →
        shape2 out = shape2 image) := by
  refine ⟨?_, ?_, ?_, ?_, ?_, ?_, ?_⟩
  · intro gf rng image sigma IR out rng2 hgf h
    cases hch : image.channels with
    | none => cases sigma <;> simp [blur, hch] at h
    | some c =>
      cases sigma <;>
        · simp only [blur, hch, PyResult.ok.injEq, Prod.mk.injEq] at h
          rw [← h.1, hgf]
  · intro rn rng image var IR cv_image out rng2 hrn h
    cases IR <;> cases var <;>
      · simp only [gaussian, Bool.false_eq_true, if_false, if_true] at h
        cases h
        simp only [shape2_convert_rgb, shape2_convert_la, hrn]
  · intro rn rng image IR cv_image out rng2 hrn h
    cases IR <;>
      · simp only [poisson, Bool.false_eq_true, if_false, if_true] at h
        cases h
        simp only [shape2_convert_rgb, shape2_convert_la, hrn]
  · intro rng image grain_amount IR cv_image out rng2 h
    cases hc : IR && !cv_image <;> cases grain_amount <;>
      · simp only [salt_and_pepper, hc, Bool.false_eq_true, if_false, if_true,
          PyResult.ok.injEq, Prod.mk.injEq] at h
        rw [← h.1]
        rfl
  · intro ag expQ rng fuel image gamma environment_flag out rng2 hag h
    cases gamma with
    | some g =>
      obtain ⟨g2, hg⟩ := under_loop_ok_is_remap ag image none none fuel rng g out rng2 h
      rw [hg, hag]
    | none =>
      obtain ⟨g2, hg⟩ := under_loop_ok_is_remap ag image _ _ fuel rng _ out rng2 h
      rw [hg, hag]
  · intro ag expQ rng fuel image gamma environment_flag out rng2 hag h
    cases gamma with
    | some g =>
      obtain ⟨g2, hg⟩ := over_loop_ok_is_remap ag image none none fuel rng g out rng2 h
      rw [hg, hag]
    | none =>
      obtain ⟨g2, hg⟩ := over_loop_ok_is_remap ag image _ _ fuel rng _ out rng2 h
      rw [hg, hag]
  · intro t image out h
    rw [environment_call_eq t image] at h
    exact absurd h (by simp)

/-- Witness for `all_transforms_preserve_shape`: the identity filter
preserves dimensions, `blur` on a concrete 1×1 RGB image with `sigma = 3`
returns that image, and its spatial shape is preserved. -/
theorem all_transforms_preserve_shape_witness :
    (∀ s im, shape2 ((fun (_ : Nat) (im : Image) => im) s im) = shape2 im) ∧
    blur (fun _ im => im) [] img_rgb1 (some 3) true =
      PyResult.ok (img_rgb1, []) ∧
    shape2 img_rgb1 = shape2 img_rgb1 := by
  refine ⟨fun _ _ => rfl, by norm_num [blur, img_rgb1], ?_⟩
  exact all_transforms_preserve_shape.1 (fun _ im => im) [] img_rgb1 (some 3)
    true img_rgb1 [] (fun _ _ => rfl) (by norm_num [blur, img_rgb1])

/-- Growing both half-axes of an ellipse can only shrink its normalised
quadratic form. -/
theorem ellipse_val_anti (xc yc : ℤ) (c s : ℚ) (x y : ℤ) {rx ry rx' ry' : ℚ}
    (hx : 0 < rx) (hx' : rx ≤ rx') (hy : 0 < ry) (hy' : ry ≤ ry') :
    ellipse_val xc yc rx' ry' c s x y ≤ ellipse_val xc yc rx ry c s x y := by
  unfold ellipse_val
  have hx2 : 0 < rx * rx := mul_pos hx hx
  have hy2 : 0 < ry * ry := mul_pos hy hy
  have hx2' : rx * rx ≤ rx' * rx' := mul_le_mul hx' hx' hx.le (hx.trans_le hx').le
  have hy2' : ry * ry ≤ ry' * ry' := mul_le_mul hy' hy' hy.le (hy.trans_le hy').le
  exact add_le_add
    (div_le_div_of_nonneg_left (sq_nonneg _) hx2 hx2')
    (div_le_div_of_nonneg_left (sq_nonneg _) hy2 hy2')

/-- Concentric co-rotated ellipses are nested as soon as both half-axes
are no smaller. -/
theorem in_ellipse_mono (xc yc : ℤ) (c s : ℚ) (x y : ℤ) {rx ry rx' ry' : ℚ}
    (hx : 0 < rx) (hx' : rx ≤ rx') (hy : 0 < ry) (hy' : ry ≤ ry') :
    in_ellipse xc yc rx ry c s x y = true →
    in_ellipse xc yc rx' ry' c s x y = true := by
  simp only [in_ellipse, decide_eq_true_eq]
  intro h
  exact le_trans (ellipse_val_anti xc yc c s x y hx hx' hy hy') h

/-- A primary radius never exceeds its blend radius. -/
theorem blend_radius_ge (r : Nat) : r ≤ blend_radius r := by
  unfold blend_radius
  omega

/-- **C4, counterexample**: the blend ellipse need not strictly contain
the primary one.  With the in-range draws `k_x = k_y = 5` on a `100×100`
image the primary radii are `int(.05·100) = 5`, and the blend radii
`int(5 * 1.05) = 5` as well, so (whatever the centre and angle, here
`(50,50)` and `0°`) the two masks coincide: the transition mask
`cv.subtract(mask_blend, mask)` — exactly the set of pixels set only in
the blend mask — is empty. -/
theorem point_blend_not_strict :
    point_radius 5 100 = 5 ∧ blend_radius 5 = 5 ∧
    ¬ ∃ x y : ℤ,
        point_transition_mask 50 50 (point_radius 5 100) (point_radius 5 100)
          (blend_radius (point_radius 5 100)) (blend_radius (point_radius 5 100))
          1 0 x y = true := by
  have h5 : point_radius 5 100 = 5 := by norm_num [point_radius]
  have hb : blend_radius 5 = 5 := by norm_num [blend_radius]
  refine ⟨h5, hb, ?_⟩
  rintro ⟨x, y, hxy⟩
  rw [h5, hb] at hxy
  simp [point_transition_mask, mask_sub] at hxy

/-- **C4, amended**: the blend ellipse mask always contains the primary
ellipse mask (the blend radii `int(1.05·r)` are never smaller), but the
containment need not be strict: whenever `int(1.05·r) = r` — that is, for
every radius below 20 pixels — the blend radius equals the primary radius
and the two masks coincide, leaving no blend-only pixel. -/
theorem point_blend_contains_primary :
    (∀ (xc yc : ℤ) (c s : ℚ) (x y : ℤ) (r_x r_y : Nat),
        0 < r_x → 0 < r_y →
        point_effect_mask xc yc r_x r_y c s x y = true →
        in_ellipse xc yc (blend_radius r_x) (blend_radius r_y) c s x y = true) ∧
    (∀ r : Nat, r < 20 → blend_radius r = r) := by
  constructor
  · intro xc yc c s x y rx ry hx hy h
    refine in_ellipse_mono xc yc c s x y ?_ ?_ ?_ ?_ h
    · exact_mod_cast hx
    · exact_mod_cast blend_radius_ge rx
    · exact_mod_cast hy
    · exact_mod_cast blend_radius_ge ry
  · decide

/-- Witness for `point_blend_contains_primary`: the pixel `(52, 50)` of
the radius-5 primary ellipse centred at `(50, 50)` also lies in its blend
ellipse. -/
theorem point_blend_contains_primary_witness :
    (0 : Nat) < 5 ∧
    point_effect_mask 50 50 5 5 1 0 52 50 = true ∧
    in_ellipse 50 50 (blend_radius 5) (blend_radius 5) 1 0 52 50 = true := by
  have hm : point_effect_mask 50 50 5 5 1 0 52 50 = true := by
    norm_num [point_effect_mask, in_ellipse, ellipse_val]
  refine ⟨by norm_num, hm, ?_⟩
  have h := point_blend_contains_primary.1 50 50 1 0 52 50 5 5
    (by norm_num) (by norm_num)
  exact h (by exact_mod_cast hm)

/-- The cut line of a slice polygon moves down (weakly) when both its end
cuts do, for any column inside the image. -/
theorem line_y_mono {c0 cw c0' cw' ww x : ℤ} (h0 : c0 ≤ c0') (hw : cw ≤ cw')
    (hww : 0 < ww) (hx0 : 0 ≤ x) (hxw : x ≤ ww) :
    line_y c0 cw ww x ≤ line_y c0' cw' ww x := by
  have hww' : (0 : ℚ) < (ww : ℚ) := by exact_mod_cast hww
  have ht0 : 0 ≤ (x : ℚ) / (ww : ℚ) := by
    apply div_nonneg _ hww'.le
    exact_mod_cast hx0
  have ht1 : (x : ℚ) / (ww : ℚ) ≤ 1 := by
    rw [div_le_one hww']
    exact_mod_cast hxw
  have h0' : (c0 : ℚ) ≤ (c0' : ℚ) := by exact_mod_cast h0
  have hw' : (cw : ℚ) ≤ (cw' : ℚ) := by exact_mod_cast hw
  unfold line_y
  rw [mul_div_assoc, mul_div_assoc]
  nlinarith [mul_nonneg (sub_nonneg.2 h0') (sub_nonneg.2 ht1),
    mul_nonneg (sub_nonneg.2 hw') ht0]

/-- A top slice is contained in any top slice with (weakly) lower cuts. -/
theorem top_slice_mono {cl cr cl' cr' ww x : ℤ} (hl : cl ≤ cl') (hr : cr ≤ cr')
    (hww : 0 < ww) (hx0 : 0 ≤ x) (hxw : x ≤ ww) (y : ℤ) :
    top_slice_mask cl cr ww x y = true → top_slice_mask cl' cr' ww x y = true := by
  simp only [top_slice_mask, decide_eq_true_eq]
  intro h
  exact le_trans h (line_y_mono hl hr hww hx0 hxw)

/-- The blend cut of a streak lies (weakly) below the primary cut. -/
theorem streak_blend_cut_ge (cut : ℤ) {bs : ℚ} (hbs : 0 ≤ bs) :
    cut ≤ streak_blend_cut cut bs := by
  unfold streak_blend_cut
  exact Int.le_floor.2 (by linarith [Int.floor_intCast (α := ℚ) cut])

/-- **C5, counterexample**: the region masks are NOT always pairwise
disjoint.  For `pipe_source` with the in-range cuts
`top = 20/20`, `bottom = 60/60` on a `100×100` image
(`blend_slice = .01·100 = 1`), the pixel `(0, 20)` on the pipe's top
boundary lies both in the effect mask (the filled pipe polygon includes
its boundary) and in the upper transition band
`xor(mask_top, mask_blend_top)`, so that pixel is covered twice, not
exactly once.  `streak_shadow` moreover never builds its masks at all:
its mask construction reads the undefined name `pts`. -/
theorem pipe_source_masks_overlap :
    pipe_effect_mask 20 20 60 60 100 0 20 = true ∧
    pipe_transition_mask 20 20 60 60 100 1 0 20 = true ∧
    b2n (pipe_effect_mask 20 20 60 60 100 0 20) +
      b2n (pipe_transition_mask 20 20 60 60 100 1 0 20) +
      b2n (pipe_background_mask 20 20 60 60 100 1 0 20) = 2 ∧
    streak_shadow [] img_rgb1 none true = PyResult.nameError "pts" := by
  have he : pipe_effect_mask 20 20 60 60 100 0 20 = true := by
    norm_num [pipe_effect_mask, line_y]
  have ht : pipe_transition_mask 20 20 60 60 100 1 0 20 = true := by
    norm_num [pipe_transition_mask, pipe_band_top, pipe_band_bottom,
      pipe_top_mask, pipe_bottom_mask, top_slice_mask, line_y]
  refine ⟨he, ht, ?_, rfl⟩
  rw [show pipe_background_mask 20 20 60 60 100 1 0 20 = false by
    simp [pipe_background_mask, ht]]
  rw [he, ht]
  rfl

/-- **C5, amended**: exact single coverage holds for the ellipse effects
(`point_source` and `point_shadow` build identical mask triples) and for
`streak_source`: their three region masks are pairwise disjoint and cover
each pixel exactly once.  It fails for `streak_shadow` (whose blend band
lies inside the effect mask — and whose mask construction reads an
undefined name) and for the pipe effects (whose transition bands share
their boundary rows with the pipe mask), per the counterexample. -/
theorem point_and_streak_source_masks_partition :
    (∀ (xc yc : ℤ) (c s : ℚ) (x y : ℤ) (r_x r_y : Nat),
        0 < r_x → 0 < r_y →
        b2n (point_effect_mask xc yc r_x r_y c s x y) +
          b2n (point_transition_mask xc yc r_x r_y
                (blend_radius r_x) (blend_radius r_y) c s x y) +
          b2n (point_background_mask xc yc
                (blend_radius r_x) (blend_radius r_y) c s x y) = 1) ∧
    (∀ (cl cr ww x y : ℤ) (bs : ℚ),
        0 < ww → 0 ≤ x → x ≤ ww → 0 ≤ bs →
        b2n (streak_effect_mask cl cr ww x y) +
          b2n (streak_transition_mask cl cr ww bs x y) +
          b2n (streak_background_mask cl cr ww bs x y) = 1) := by
  constructor
  · intro xc yc c s x y rx ry hx hy
    have hmono := @in_ellipse_mono xc yc c s x y
      rx ry (blend_radius rx : ℚ) (blend_radius ry : ℚ)
      (by exact_mod_cast hx) (by exact_mod_cast blend_radius_ge rx)
      (by exact_mod_cast hy) (by exact_mod_cast blend_radius_ge ry)
    cases hP : in_ellipse xc yc rx ry c s x y <;>
      cases hB : in_ellipse xc yc (blend_radius rx) (blend_radius ry) c s x y
    · simp [point_effect_mask, point_transition_mask, point_background_mask,
        mask_sub, b2n, hP, hB]
    · simp [point_effect_mask, point_transition_mask, point_background_mask,
        mask_sub, b2n, hP, hB]
    · exact absurd (hmono hP) (by simp [hB])
    · simp [point_effect_mask, point_transition_mask, point_background_mask,
        mask_sub, b2n, hP, hB]
  · intro cl cr ww x y bs hww hx0 hxw hbs
    have hmono := top_slice_mono (streak_blend_cut_ge cl hbs)
      (streak_blend_cut_ge cr hbs) hww hx0 hxw y
    cases hP : top_slice_mask cl cr ww x y <;>
      cases hB : top_slice_mask (streak_blend_cut cl bs) (streak_blend_cut cr bs)
        ww x y
    · simp [streak_effect_mask, streak_transition_mask, streak_background_mask,
        b2n, hP, hB]
    · simp [streak_effect_mask, streak_transition_mask, streak_background_mask,
        b2n, hP, hB]
    · exact absurd (hmono hP) (by simp [hB])
    · simp [streak_effect_mask, streak_transition_mask, streak_background_mask,
        b2n, hP, hB]

/-- Witness for `point_and_streak_source_masks_partition`: the concrete
radius-5 ellipse pair at `(50,50)` covers pixel `(0,0)` exactly once, and
the concrete streak geometry `cuts 20/20`, `blend 1` on a width-100 image
covers pixel `(0,50)` exactly once. -/
theorem point_and_streak_source_masks_partition_witness :
    ((0 : Nat) < 5 ∧
      b2n (point_effect_mask 50 50 5 5 1 0 0 0) +
        b2n (point_transition_mask 50 50 5 5 (blend_radius 5) (blend_radius 5) 1 0 0 0) +
        b2n (point_background_mask 50 50 (blend_radius 5) (blend_radius 5) 1 0 0 0) = 1) ∧
    ((0 : ℤ) < 100 ∧ (0 : ℚ) ≤ 1 ∧
      b2n (streak_effect_mask 20 20 100 0 50) +
        b2n (streak_transition_mask 20 20 100 1 0 50) +
        b2n (streak_background_mask 20 20 100 1 0 50) = 1) := by
  constructor
  · exact ⟨by norm_num,
      point_and_streak_source_masks_partition.1 50 50 1 0 0 0 5 5
        (by norm_num) (by norm_num)⟩
  · exact ⟨by norm_num, by norm_num,
      point_and_streak_source_masks_partition.2 20 20 100 0 50 1
        (by norm_num) (by norm_num) (by norm_num) (by norm_num)⟩

/-- Witness for `infrared_round_trip_only_gaussian_poisson`: with an
identity noise primitive, `gaussian` in infrared mode on a concrete 1×1
RGB image returns the LA→RGB round trip of its input, a 3-channel
image. -/
theorem infrared_round_trip_only_gaussian_poisson_witness :
    gaussian (fun _ r im => (im, r)) [] img_rgb1 (some ((1 : ℚ)/100)) true false =
      PyResult.ok (convert_rgb (convert_la img_rgb1), []) ∧
    (convert_rgb (convert_la img_rgb1)).channels = some 3 := by
  refine ⟨rfl, ?_⟩
  exact infrared_round_trip_only_gaussian_poisson.1 (fun _ r im => (im, r)) []
    img_rgb1 (some ((1 : ℚ)/100)) false (convert_rgb (convert_la img_rgb1)) [] rfl

/-- **C8, counterexample**: `pipe_shadow` is a pipe effect, yet a call
supplying an angle cannot reach the documented assertion/`ValueError`
path — the function exposes no angle parameter (`image, randomize, IR`)
and its body reads the undefined name `pipe_angle`, so every invocation
raises `NameError: pipe_angle` instead of the advertised
`'Function to come'` failure. -/
theorem pipe_shadow_not_assert_guarded :
    pipe_shadow img_rgb1 true true = PyResult.nameError "pipe_angle" ∧
    (PyResult.nameError "pipe_angle" : PyResult Image) ≠
      PyResult.valueError "Function to come" :=
  ⟨rfl, by simp⟩

/-- **C8, amended**: `streak_source`, `streak_shadow` and `pipe_source`
handle an explicit angle exactly as claimed — the assertion rejects angles
outside `(0, 180)`, angles inside raise `ValueError('Function to come')`,
and no image is ever returned; `pipe_shadow`, however, accepts no angle
parameter and fails on every invocation with `NameError: pipe_angle`, so
it also never returns an image or silently no-ops, but not through the
advertised assertion path. -/
theorem angle_branches_fail_fast :
    ∀ a : ℚ,
      (0 < a → a < 180 →
        streak_source_angle_branch a = PyResult.valueError "Function to come" ∧
        streak_shadow_angle_branch a = PyResult.valueError "Function to come" ∧
        pipe_source_angle_branch a = PyResult.valueError "Function to come") ∧
      (¬ (0 < a ∧ a < 180) →
        streak_source_angle_branch a = PyResult.assertionError ∧
        streak_shadow_angle_branch a = PyResult.assertionError ∧
        pipe_source_angle_branch a = PyResult.assertionError) ∧
      (streak_source_angle_branch a).isOk = false ∧
      (streak_shadow_angle_branch a).isOk = false ∧
      (pipe_source_angle_branch a).isOk = false ∧
      (∀ (image : Image) (randomize IR : Bool),
        pipe_shadow image randomize IR = PyResult.nameError "pipe_angle") := by
  intro a
  refine ⟨?_, ?_, ?_, ?_, ?_, fun _ _ _ => rfl⟩
  · intro h1 h2
    refine ⟨?_, ?_, ?_⟩ <;>
      simp [streak_source_angle_branch, streak_shadow_angle_branch,
        pipe_source_angle_branch, h1, h2]
  · intro h
    refine ⟨?_, ?_, ?_⟩ <;>
      simp [streak_source_angle_branch, streak_shadow_angle_branch,
        pipe_source_angle_branch, h]
  · by_cases h : 0 < a ∧ a < 180 <;>
      simp [streak_source_angle_branch, h, PyResult.isOk]
  · by_cases h : 0 < a ∧ a < 180 <;>
      simp [streak_shadow_angle_branch, h, PyResult.isOk]
  · by_cases h : 0 < a ∧ a < 180 <;>
      simp [pipe_source_angle_branch, h, PyResult.isOk]

/-- Witness for `angle_branches_fail_fast`: the in-range angle 90 raises
the `'Function to come'` error from `streak_source`. -/
theorem angle_branches_fail_fast_witness :
    (0 : ℚ) < 90 ∧ (90 : ℚ) < 180 ∧
    streak_source_angle_branch 90 = PyResult.valueError "Function to come" := by
  refine ⟨by norm_num, by norm_num, ?_⟩
  exact ((angle_branches_fail_fast 90).1 (by norm_num) (by norm_num)).1

end FaceNoise
